import Mathlib

/-!
Shallow embedding of the e-tongue dashboard application (src/app.py): the
herb-info table, the sensor-reading analysis pipeline run by the
"Start Herb Analysis" button (app.py lines 245-293), the feature-vector
construction (line 268), the expected-feature-width fallbacks (lines 48-52
and 266), and the page gating logic of the Herb Classifier page
(lines 167-240).  Python floats are modelled as rationals; the external
collaborators (the JSON parser `json.loads` and the model object passed to
`predict`) are modelled as function parameters of the pipeline, since the
repository does not implement them.
-/

/-- One entry of the HERB_INFO dictionary (app.py lines 96-113): a pair of
descriptive strings. -/
structure HerbInfoEntry where
  Properties : String
  Uses : String
deriving DecidableEq, Repr

/-- The "Tulsi" entry (app.py lines 97-100). -/
def tulsiInfo : HerbInfoEntry :=
  { Properties := "Rich in antioxidants, antimicrobial"
  , Uses := "Helps with cold, cough, respiratory issues" }

/-- The "Neem" entry (app.py lines 101-104). -/
def neemInfo : HerbInfoEntry :=
  { Properties := "Anti-bacterial, antifungal, blood purifier"
  , Uses := "Treats skin diseases, dental issues, boosts immunity" }

/-- The "Ashwagandha" entry (app.py lines 105-108). -/
def ashwagandhaInfo : HerbInfoEntry :=
  { Properties := "Adaptogenic, stress reliever"
  , Uses := "Reduces stress, boosts energy, improves sleep" }

/-- The "Unknown" entry (app.py lines 109-112). -/
def unknownInfo : HerbInfoEntry :=
  { Properties := "Not in dataset"
  , Uses := "Needs further research" }

/-- The HERB_INFO dictionary (app.py lines 96-113) as an association list,
in source order. -/
def HERB_INFO : List (String × HerbInfoEntry) :=
  [("Tulsi", tulsiInfo), ("Neem", neemInfo),
   ("Ashwagandha", ashwagandhaInfo), ("Unknown", unknownInfo)]

/-- The lookup `HERB_INFO.get(pred, HERB_INFO["Unknown"])` of app.py
line 283: return the entry for the label when present, otherwise the
"Unknown" entry. -/
def HERB_INFO_get (label : String) : HerbInfoEntry :=
  (HERB_INFO.lookup label).getD unknownInfo

/-- A JSON value as produced by `json.loads`, abstracted to exactly what
the pipeline observes: whether Python `float()` would convert it and, if
so, to which number.  `num` covers JSON numbers, `numStr` a JSON string
whose text is a valid Python float literal (carrying that value), `str` a
JSON string that is not, `bool` a JSON boolean (which `float()` converts
to 1 or 0), and `null`, `arr`, `obj` the remaining JSON shapes, on which
`float()` raises. -/
inductive JsonVal where
  | num (q : ℚ)
  | numStr (q : ℚ)
  | str (s : String)
  | bool (b : Bool)
  | null
  | arr
  | obj
deriving DecidableEq, Repr

/-- Python `float()` applied to a JSON value: `some` the numeric value
when the conversion succeeds, `none` when it raises. -/
def pyFloat : JsonVal → Option ℚ
  | .num q => some q
  | .numStr q => some q
  | .bool b => some (if b then 1 else 0)
  | .str _ => none
  | .null => none
  | .arr => none
  | .obj => none

/-- Whitespace characters removed by Python `str.strip()` (the ASCII
ones; the decoded serial line is ASCII-oriented). -/
def isPyWhitespace (c : Char) : Bool :=
  c = ' ' || c = '\t' || c = '\n' || c = '\r' || c = '\x0b' || c = '\x0c'

/-- Python `str.strip()` as used on app.py line 248: remove leading and
trailing whitespace. -/
def pyStrip (s : String) : String :=
  ⟨((s.data.dropWhile isPyWhitespace).reverse.dropWhile isPyWhitespace).reverse⟩

/-- The feature-vector construction of app.py line 268:
`[float(data["LDR_Analog"]), float(data["pH"])] + [0.0] * max(0, expected - 2)`.
The two measured values come first, then zero padding up to the expected
width. -/
def buildFeatureVector (ldr ph : ℚ) (expected : ℤ) : List ℚ :=
  [ldr, ph] ++ List.replicate (max 0 (expected - 2)).toNat 0

/-- The expected-feature computation of try_load_model (app.py lines
48-52): `int(model.n_features_in_)` when the model exposes it, and the
fallback 11 when reading the attribute raises. -/
def modelExpectedFeatures (nFeaturesIn : Option ℤ) : ℤ :=
  match nFeaturesIn with
  | some n => n
  | none => 11

/-- Python `x or d` on an optional integer, as on app.py line 266
(`st.session_state.expected_features or 11`): `None` and 0 are falsy and
give the default; any other integer is returned unchanged. -/
def pyOrInt (x : Option ℤ) (d : ℤ) : ℤ :=
  match x with
  | none => d
  | some n => if n = 0 then d else n

/-- The fixed error message of app.py line 261, shown when a required key
is absent. -/
def missingFieldMsg : String :=
  "Incoming data must contain at least \x27LDR_Analog\x27 and \x27pH\x27 fields."

/-- The distinct failure outcomes of one "Start Herb Analysis" run
(app.py lines 245-293): the empty-line stop (line 250), the JSON-parse
stop carrying the exception text and the raw line (line 256), the
missing-key stop carrying the fixed message and the received keys
(lines 261-262), the prediction-failure stop carrying the exception text
(line 274), and the outer generic handler (line 293). -/
inductive AnalysisOutcome where
  | noDataReceived
  | malformedReading (excMsg : String) (raw : String)
  | missingRequiredField (msg : String) (receivedKeys : List String)
  | predictionFailed (excMsg : String)
  | unexpectedError
deriving DecidableEq, Repr

/-- The data displayed on a successful run (app.py lines 278-290): the
predicted label, its HERB_INFO entry, and the abnormal-pH flag computed
on line 289. -/
structure ClassificationResult where
  label : String
  info : HerbInfoEntry
  abnormalPh : Bool
deriving DecidableEq, Repr

/-- One run of the "Start Herb Analysis" handler (app.py lines 245-293).
`parse` is `json.loads` (returning the key-value pairs or the exception
text), `predict` is `st.session_state.model.predict(X)[0]` (returning
the label or the exception text), `expectedFeatures` is
`st.session_state.expected_features`, and `rawLine` is the decoded serial
line before stripping.  Steps, in source order: strip the line and stop
with NoDataReceived if empty (lines 248-251); parse as JSON and stop with
MalformedReading on failure (lines 252-257); stop with
MissingRequiredField if "LDR_Analog" or "pH" is absent (lines 259-263);
convert both values with `float()` — a conversion failure propagates to
the outer handler as the generic unexpected error (lines 265-268, 292-293);
build the padded feature vector (lines 266-268); predict, stopping with
PredictionFailed on failure (lines 270-275); otherwise return the result,
with the abnormal-pH flag from line 289. -/
def startHerbAnalysis
    (parse : String → Except String (List (String × JsonVal)))
    (predict : List ℚ → Except String String)
    (expectedFeatures : Option ℤ)
    (rawLine : String) : Except AnalysisOutcome ClassificationResult :=
  let raw := pyStrip rawLine
  if raw = "" then
    .error .noDataReceived
  else
    match parse raw with
    | .error e => .error (.malformedReading e raw)
    | .ok data =>
      if (data.lookup "LDR_Analog").isNone || (data.lookup "pH").isNone then
        .error (.missingRequiredField missingFieldMsg (data.map Prod.fst))
      else
        let expected := pyOrInt expectedFeatures 11
        match pyFloat ((data.lookup "LDR_Analog").getD .null),
              pyFloat ((data.lookup "pH").getD .null) with
        | some ldr, some ph =>
          let X := buildFeatureVector ldr ph expected
          match predict X with
          | .error e => .error (.predictionFailed e)
          | .ok pred =>
            .ok { label := pred
                , info := HERB_INFO_get pred
                , abnormalPh := ph < 5.5 || ph > 8.5 }
        | _, _ => .error .unexpectedError

/-- Substring test: `strContainsSubstr s pat` holds when `pat` occurs
contiguously in `s`. -/
def strContainsSubstr (s pat : String) : Bool :=
  (List.range (s.data.length + 1)).any fun i => pat.data.isPrefixOf (s.data.drop i)

/-- The acquisition modes named by the design: reading from a connected
serial device, or synthesizing a random reading. -/
inductive AcquisitionMode where
  | device
  | synthetic
deriving DecidableEq, Repr

/-- The acquisition modes the application implements.  The only
acquisition path in app.py is the serial read of lines 246-248; the
Instructions page states explicitly that the app will not run in demo
mode (line 130), and the Herb Classifier page stops without a serial
stack (lines 183-186), without a detected port (lines 206-208), and the
analysis section requires a connected device (line 240).  No synthetic
generation exists anywhere in the source. -/
def implementedAcquisitionModes : List AcquisitionMode :=
  [.device]

/-- Whether the Herb Classifier page reaches its "Run analysis" section,
as a function of the session flags (app.py lines 167-240): the page stops
when the model is unavailable (line 179), stops when pyserial is
unavailable (line 186), stops when no serial port is detected (line 208),
and the analysis section itself is guarded by
`st.session_state.serial_connected and st.session_state.MODEL_AVAILABLE`
(line 240). -/
def herbClassifierReachesAnalysis
    (modelAvailable serialAvailable portsNonempty serialConnected : Bool) : Bool :=
  if !modelAvailable then false
  else if !serialAvailable then false
  else if !portsNonempty then false
  else serialConnected && modelAvailable

/-- Whether one render of the Herb Classifier page invokes the model
prediction: the analysis section must be reached and the
"Start Herb Analysis" button clicked (app.py line 243); the predict call
of line 272 sits only inside that branch. -/
def classifyInvoked
    (modelAvailable serialAvailable portsNonempty serialConnected startClicked : Bool) : Bool :=
  herbClassifierReachesAnalysis modelAvailable serialAvailable portsNonempty serialConnected
    && startClicked

/-- Positions of a replicated list of zeros: every in-range index reads 0. -/
theorem replicate_zero_get (n i : ℕ) (h : i < n) :
    (List.replicate n (0 : ℚ))[i]? = some 0 := by
  induction n generalizing i with
  | zero => omega
  | succ m ih =>
    cases i with
    | zero => rw [List.replicate_succ]; exact List.getElem?_cons_zero
    | succ j =>
      rw [List.replicate_succ, List.getElem?_cons_succ]
      exact ih j (by omega)

/-- C1: for any reading values and any expected width at least 2, the
feature vector built on app.py line 268 has length exactly the expected
width, position 0 holds the LDR value, position 1 holds the pH value, and
every later in-range position holds 0. -/
theorem feature_vector_shape (ldr ph : ℚ) (e : ℤ) (h : 2 ≤ e) :
    ((buildFeatureVector ldr ph e).length : ℤ) = e ∧
    (buildFeatureVector ldr ph e)[0]? = some ldr ∧
    (buildFeatureVector ldr ph e)[1]? = some ph ∧
    ∀ i : ℕ, 2 ≤ i → (i : ℤ) < e → (buildFeatureVector ldr ph e)[i]? = some 0 := by
  have hlen : (buildFeatureVector ldr ph e).length = 2 + (max 0 (e - 2)).toNat := by
    simp [buildFeatureVector]; omega
  refine ⟨?_, by simp [buildFeatureVector], by simp [buildFeatureVector], ?_⟩
  · rw [hlen]; omega
  · intro i h2 hiu
    obtain ⟨k, rfl⟩ : ∃ k, i = k + 2 := ⟨i - 2, by omega⟩
    simp only [buildFeatureVector, List.cons_append, List.nil_append,
      List.getElem?_cons_succ]
    exact replicate_zero_get _ k (by omega)

/-- C1 witness: instantiation at ldr = 320, ph = 6.8, expected width 5. -/
theorem feature_vector_shape_witness :
    ((buildFeatureVector 320 6.8 5).length : ℤ) = 5 ∧
    (buildFeatureVector 320 6.8 5)[0]? = some (320 : ℚ) ∧
    (buildFeatureVector 320 6.8 5)[1]? = some (6.8 : ℚ) ∧
    ∀ i : ℕ, 2 ≤ i → (i : ℤ) < 5 → (buildFeatureVector 320 6.8 5)[i]? = some 0 :=
  feature_vector_shape 320 6.8 5 (by decide)

/-- C9: when the model does not expose a feature count, try_load_model
stores the fallback 11 (app.py lines 48-52); and when the stored expected
count is absent or zero, the pipeline uses width 11 (app.py line 266), so
the feature vector it builds has length 11. -/
theorem expected_width_fallback_11 :
    modelExpectedFeatures none = 11 ∧
    pyOrInt none 11 = 11 ∧
    pyOrInt (some 0) 11 = 11 ∧
    ∀ ldr ph : ℚ,
      (buildFeatureVector ldr ph (pyOrInt none 11)).length = 11 ∧
      (buildFeatureVector ldr ph (pyOrInt (some 0) 11)).length = 11 := by
  refine ⟨rfl, rfl, rfl, fun ldr ph => ⟨?_, ?_⟩⟩ <;> simp [buildFeatureVector, pyOrInt]

/-- C7: label lookup (app.py line 283) returns the table entry verbatim
for any label present in HERB_INFO, returns the "Unknown" entry verbatim
for any label absent from it, and in particular returns the exact Tulsi
strings for "Tulsi". -/
theorem herb_info_lookup :
    (∀ label entry, HERB_INFO.lookup label = some entry → HERB_INFO_get label = entry) ∧
    (∀ label, HERB_INFO.lookup label = none → HERB_INFO_get label = unknownInfo) ∧
    HERB_INFO_get "Tulsi" =
      { Properties := "Rich in antioxidants, antimicrobial"
      , Uses := "Helps with cold, cough, respiratory issues" } := by
  refine ⟨fun label entry h => ?_, fun label h => ?_, by decide⟩
  · simp [HERB_INFO_get, h]
  · simp [HERB_INFO_get, h]

/-- C7 witness: instantiation at the present label "Neem" and the absent
label "Mint". -/
theorem herb_info_lookup_witness :
    HERB_INFO_get "Neem" = neemInfo ∧ HERB_INFO_get "Mint" = unknownInfo :=
  ⟨herb_info_lookup.1 "Neem" neemInfo (by decide),
   herb_info_lookup.2.1 "Mint" (by decide)⟩

/-- C3 counterexample: the application implements no synthetic
acquisition mode — its only acquisition path reads from the serial
device.  The spec sentence asserting a synthetic mode exists is therefore
false of this code. -/
theorem synthetic_mode_absent_cex :
    AcquisitionMode.synthetic ∉ implementedAcquisitionModes := by
  decide

/-- C3 amended: acquisition happens only in device mode.  The Herb
Classifier page never reaches its analysis section without the serial
stack present and a device connected, and device mode is the only
implemented acquisition mode. -/
theorem device_mode_required :
    implementedAcquisitionModes = [AcquisitionMode.device] ∧
    (∀ m p c, herbClassifierReachesAnalysis m false p c = false) ∧
    (∀ m sa p, herbClassifierReachesAnalysis m sa p false = false) := by
  refine ⟨rfl, ?_, ?_⟩ <;> decide

/-- C8: while the model is unavailable, the Herb Classifier page never
invokes the prediction, whatever the serial flags and button state: the
page stops at the model-status block (app.py line 179) and the analysis
branch additionally requires MODEL_AVAILABLE (line 240). -/
theorem model_unavailable_blocks_classify :
    ∀ sa p c s, classifyInvoked false sa p c s = false := by
  decide

/-- C5: a device read whose line is empty after stripping fails with the
NoDataReceived outcome (app.py lines 249-251) — in particular not with
MalformedReading — for every parser, model, and stored expected width. -/
theorem empty_line_no_data
    (parse : String → Except String (List (String × JsonVal)))
    (predict : List ℚ → Except String String)
    (expectedFeatures : Option ℤ) (rawLine : String)
    (h : pyStrip rawLine = "") :
    startHerbAnalysis parse predict expectedFeatures rawLine =
      .error .noDataReceived ∧
    ∀ e raw, startHerbAnalysis parse predict expectedFeatures rawLine ≠
      .error (.malformedReading e raw) := by
  have hrun : startHerbAnalysis parse predict expectedFeatures rawLine =
      .error .noDataReceived := by
    simp [startHerbAnalysis, h]
  exact ⟨hrun, fun e raw => by simp [hrun]⟩

/-- C5 witness: instantiation at a line of pure whitespace. -/
theorem empty_line_no_data_witness :
    startHerbAnalysis (fun _ => .error "Expecting value") (fun _ => .ok "Tulsi")
        (some 11) "  \r\n" =
      .error .noDataReceived ∧
    ∀ e raw, startHerbAnalysis (fun _ => .error "Expecting value")
        (fun _ => .ok "Tulsi") (some 11) "  \r\n" ≠
      .error (.malformedReading e raw) :=
  empty_line_no_data _ _ _ _ (by decide)

/-- C6: a device read whose stripped line is non-empty but fails JSON
parsing yields the MalformedReading outcome carrying the offending raw
text (and the parser exception text), per app.py lines 252-257. -/
theorem malformed_reading_carries_raw
    (parse : String → Except String (List (String × JsonVal)))
    (predict : List ℚ → Except String String)
    (expectedFeatures : Option ℤ) (rawLine excMsg : String)
    (h1 : pyStrip rawLine ≠ "")
    (h2 : parse (pyStrip rawLine) = .error excMsg) :
    startHerbAnalysis parse predict expectedFeatures rawLine =
      .error (.malformedReading excMsg (pyStrip rawLine)) := by
  simp [startHerbAnalysis, h1, h2]

/-- C6 witness: instantiation at the non-JSON line "hello world" with a
parser that rejects everything. -/
theorem malformed_reading_carries_raw_witness :
    startHerbAnalysis (fun _ => .error "Expecting value: line 1 column 1")
        (fun _ => .ok "Tulsi") (some 11) "hello world" =
      .error (.malformedReading "Expecting value: line 1 column 1"
        (pyStrip "hello world")) :=
  malformed_reading_carries_raw _ _ _ _ _ (by decide) rfl

/-- C2: whenever an analysis run reaches a result — for any pH value at
all — the result is produced, and it is flagged abnormal exactly when the
pH is below 5.5 or above 8.5 (app.py line 289); the boundary values 5.5
and 8.5 are not abnormal, and an abnormal pH never prevents the result,
since the flag is computed after the result exists. -/
theorem abnormal_ph_advisory
    (parse : String → Except String (List (String × JsonVal)))
    (predict : List ℚ → Except String String)
    (expectedFeatures : Option ℤ) (rawLine : String)
    (data : List (String × JsonVal)) (ldrV phV : JsonVal) (ldr ph : ℚ)
    (pred : String)
    (h1 : pyStrip rawLine ≠ "")
    (h2 : parse (pyStrip rawLine) = .ok data)
    (h3 : data.lookup "LDR_Analog" = some ldrV)
    (h4 : data.lookup "pH" = some phV)
    (h5 : pyFloat ldrV = some ldr)
    (h6 : pyFloat phV = some ph)
    (h7 : predict (buildFeatureVector ldr ph (pyOrInt expectedFeatures 11)) =
      .ok pred) :
    ∃ r, startHerbAnalysis parse predict expectedFeatures rawLine = .ok r ∧
      (r.abnormalPh = true ↔ (ph < 5.5 ∨ ph > 8.5)) ∧
      ((ph = 5.5 ∨ ph = 8.5) → r.abnormalPh = false) := by
  refine ⟨{ label := pred, info := HERB_INFO_get pred
          , abnormalPh := ph < 5.5 || ph > 8.5 }, ?_, ?_, ?_⟩
  · simp [startHerbAnalysis, h1, h2, h3, h4, h5, h6, h7]
  · simp
  · rintro (rfl | rfl) <;> simp <;> norm_num

/-- C2 witness: instantiation at the boundary pH 8.5 (not abnormal), with
a reading whose parsed data holds LDR 320 and pH 8.5 and a model that
answers "Tulsi". -/
theorem abnormal_ph_advisory_witness :
    ∃ r, startHerbAnalysis
        (fun _ => .ok [("LDR_Analog", .num 320), ("pH", .num 8.5)])
        (fun _ => .ok "Tulsi") (some 11) "x" = .ok r ∧
      (r.abnormalPh = true ↔ ((8.5 : ℚ) < 5.5 ∨ (8.5 : ℚ) > 8.5)) ∧
      (((8.5 : ℚ) = 5.5 ∨ (8.5 : ℚ) = 8.5) → r.abnormalPh = false) :=
  abnormal_ph_advisory _ _ _ _ _ _ _ _ _ _
    (by decide) rfl rfl rfl rfl rfl rfl

/-- C4: a device read parsed into data missing the "LDR_Analog" key or
the "pH" key fails with the MissingRequiredField outcome (app.py lines
259-263), and the fixed message it carries names both required keys — so
any missing key is named in it. -/
theorem missing_required_field_names_keys
    (parse : String → Except String (List (String × JsonVal)))
    (predict : List ℚ → Except String String)
    (expectedFeatures : Option ℤ) (rawLine : String)
    (data : List (String × JsonVal))
    (h1 : pyStrip rawLine ≠ "")
    (h2 : parse (pyStrip rawLine) = .ok data)
    (h3 : data.lookup "LDR_Analog" = none ∨ data.lookup "pH" = none) :
    startHerbAnalysis parse predict expectedFeatures rawLine =
      .error (.missingRequiredField missingFieldMsg (data.map Prod.fst)) ∧
    strContainsSubstr missingFieldMsg "pH" = true ∧
    strContainsSubstr missingFieldMsg "LDR_Analog" = true := by
  refine ⟨?_, by decide, by decide⟩
  rcases h3 with h3 | h3 <;> simp [startHerbAnalysis, h1, h2, h3]

/-- C4 witness: instantiation at parsed data holding only "LDR_Analog",
so "pH" is the missing key. -/
theorem missing_required_field_names_keys_witness :
    startHerbAnalysis (fun _ => .ok [("LDR_Analog", JsonVal.num 320)])
        (fun _ => .ok "Tulsi") (some 11) "x" =
      .error (.missingRequiredField missingFieldMsg
        ([("LDR_Analog", JsonVal.num 320)].map Prod.fst)) ∧
    strContainsSubstr missingFieldMsg "pH" = true ∧
    strContainsSubstr missingFieldMsg "LDR_Analog" = true :=
  missing_required_field_names_keys _ _ _ _ _ (by decide) rfl (Or.inr rfl)

/-- C10: a device read parsed into data holding both required keys, where
at least one of the two values is not convertible by Python float(),
fails with the generic unexpected-error outcome of the outer handler
(app.py lines 265-268 and 292-293) — not MalformedReading, not
MissingRequiredField — and produces no result. -/
theorem nonnumeric_value_unexpected_error
    (parse : String → Except String (List (String × JsonVal)))
    (predict : List ℚ → Except String String)
    (expectedFeatures : Option ℤ) (rawLine : String)
    (data : List (String × JsonVal)) (ldrV phV : JsonVal)
    (h1 : pyStrip rawLine ≠ "")
    (h2 : parse (pyStrip rawLine) = .ok data)
    (h3 : data.lookup "LDR_Analog" = some ldrV)
    (h4 : data.lookup "pH" = some phV)
    (h5 : pyFloat ldrV = none ∨ pyFloat phV = none) :
    startHerbAnalysis parse predict expectedFeatures rawLine =
      .error .unexpectedError ∧
    (∀ e raw, startHerbAnalysis parse predict expectedFeatures rawLine ≠
      .error (.malformedReading e raw)) ∧
    (∀ m ks, startHerbAnalysis parse predict expectedFeatures rawLine ≠
      .error (.missingRequiredField m ks)) ∧
    (∀ r, startHerbAnalysis parse predict expectedFeatures rawLine ≠ .ok r) := by
  have hrun : startHerbAnalysis parse predict expectedFeatures rawLine =
      .error .unexpectedError := by
    rcases h5 with h5 | h5
    · simp [startHerbAnalysis, h1, h2, h3, h4, h5]
    · cases hq : pyFloat ldrV <;>
        simp [startHerbAnalysis, h1, h2, h3, h4, h5, hq]
  exact ⟨hrun, fun e raw => by simp [hrun], fun m ks => by simp [hrun],
    fun r => by simp [hrun]⟩

/-- C10 witness: instantiation at parsed data whose "pH" value is the
non-numeric string "abc". -/
theorem nonnumeric_value_unexpected_error_witness :
    startHerbAnalysis
        (fun _ => .ok [("LDR_Analog", .num 320), ("pH", .str "abc")])
        (fun _ => .ok "Tulsi") (some 11) "x" =
      .error .unexpectedError ∧
    (∀ e raw, startHerbAnalysis
        (fun _ => .ok [("LDR_Analog", .num 320), ("pH", .str "abc")])
        (fun _ => .ok "Tulsi") (some 11) "x" ≠
      .error (.malformedReading e raw)) ∧
    (∀ m ks, startHerbAnalysis
        (fun _ => .ok [("LDR_Analog", .num 320), ("pH", .str "abc")])
        (fun _ => .ok "Tulsi") (some 11) "x" ≠
      .error (.missingRequiredField m ks)) ∧
    (∀ r, startHerbAnalysis
        (fun _ => .ok [("LDR_Analog", .num 320), ("pH", .str "abc")])
        (fun _ => .ok "Tulsi") (some 11) "x" ≠ .ok r) :=
  nonnumeric_value_unexpected_error _ _ _ _ _ _ _
    (by decide) rfl rfl rfl (Or.inr rfl)
